import Mathlib

/-!
Shallow embedding of the LawRef pipeline (src/app.py): an async
search / scrape / summarize pipeline over Indian Kanoon.  Network
responses are modelled by a `World` mapping each URL to either an HTTP
response (status code plus parsed document) or a timeout; the
generative model is an oracle from the built prompt to either decoded
output text or an error message; Python exceptions are modelled with
`Except`.
-/

namespace LawRef

/-! ### Python string primitives, modelled on the character list -/

/-- If the pattern list is a leading segment of the list, return the rest. -/
def stripLead : List Char → List Char → Option (List Char)
  | [], l => some l
  | _ :: _, [] => none
  | c :: cs, d :: ds => if c = d then stripLead cs ds else none

/-- Split at the leftmost occurrence of the separator: returns the part
before it and the part after it, or none when the separator does not occur. -/
def findSplit (sep : List Char) : List Char → Option (List Char × List Char)
  | [] =>
    match stripLead sep [] with
    | some rest => some ([], rest)
    | none => none
  | d :: ds =>
    match stripLead sep (d :: ds) with
    | some rest => some ([], rest)
    | none =>
      match findSplit sep ds with
      | some p => some (d :: p.1, p.2)
      | none => none

/-- Python membership test for strings: sub occurs somewhere in s. -/
def pyIn (sub s : String) : Bool :=
  (findSplit sub.data s.data).isSome

/-- Python s.split(sep, 1)[-1] for a nonempty separator: everything after
the leftmost occurrence of sep, or s itself when sep does not occur. -/
def pyAfterFirst (s sep : String) : String :=
  match findSplit sep.data s.data with
  | some p => ⟨p.2⟩
  | none => s

/-- Python slicing s[:n]: the first n characters of s. -/
def pyTruncate (s : String) (n : Nat) : String :=
  ⟨s.data.take n⟩

/-- Drop leading whitespace characters. -/
def dropLeadWs : List Char → List Char
  | [] => []
  | c :: cs => if c.isWhitespace then dropLeadWs cs else c :: cs

/-- Python s.strip(): remove leading and trailing whitespace. -/
def pyStrip (s : String) : String :=
  ⟨(dropLeadWs (dropLeadWs s.data).reverse).reverse⟩

/-- Python sep.join(parts). -/
def pyJoin (sep : String) : List String → String
  | [] => ""
  | [s] => s
  | s :: rest => s ++ sep ++ pyJoin sep rest

/-! ### Data model -/

/-- Constant MAX_CASE_TEXT_LENGTH from src/app.py. -/
def MAX_CASE_TEXT_LENGTH : Nat := 9500

/-- Constant MAX_CONCURRENT_REQUESTS from src/app.py. -/
def MAX_CONCURRENT_REQUESTS : Nat := 100

/-- One anchor element matched by the result-title selector: its text
content and its href attribute, which an HTML element may lack. -/
structure Link where
  text : String
  href : Option String
deriving DecidableEq, Repr

/-- The parsed form of a fetched HTML document, restricted to what the
code selects: the result-title anchors, and the text of each paragraph
nested under the expanded-headline fragment containers (each entry is
the paragraph text produced with single-space separators, stripped). -/
structure Html where
  resultLinks : List Link
  fragmentParagraphs : List String
deriving DecidableEq, Repr

/-- Outcome of one outbound HTTP GET: a response with a status code and
a body, or a timeout / network failure raised by the client. -/
inductive FetchResult where
  | response (status : Nat) (body : Html)
  | timeout
deriving DecidableEq, Repr

/-- The network environment: what each URL returns during this run. -/
def World : Type := String → FetchResult

/-- Python exceptions that can escape the modelled fragment:
a client timeout error carrying the URL, a KeyError from a missing
attribute, and the model artifact for awaiting a never-completing task. -/
inductive PyErr where
  | timeoutError (url : String)
  | keyError (key : String)
  | unfinished
deriving DecidableEq, Repr

/-- One search result: {title, url} as built by search_indiankanoon. -/
structure SearchResult where
  title : String
  url : String
deriving DecidableEq, Repr

/-- One case document: {title, text, url} as built by scrape_case. -/
structure CaseDocument where
  title : String
  text : String
  url : String
deriving DecidableEq, Repr

/-- One output record: {title, summary} as built by process_case. -/
structure CaseSummary where
  title : String
  summary : String
deriving DecidableEq, Repr

/-- The generation oracle: tokenizer + model.generate + decode, as a
function from the built prompt to the decoded output text, or to the
message of the exception the generation step raised. -/
def Gen : Type := String → Except String String

/-- An httpx response as the code uses it: status_code and parsed body. -/
structure Response where
  status_code : Nat
  body : Html
deriving DecidableEq, Repr

/-! ### Fetch layer -/

/-- fetch_url: performs the GET under the semaphore; a timeout raises. -/
def fetch_url (w : World) (url : String) : Except PyErr Response :=
  match w url with
  | .response s b => .ok ⟨s, b⟩
  | .timeout => .error (.timeoutError url)

/-! ### Search -/

/-- The search URL built from the query. -/
def searchURL (query : String) : String :=
  "https://indiankanoon.org/search/?formInput=" ++ query

/-- One entry of the search comprehension: title is the stripped text,
url is the domain plus the relative href; a missing href raises KeyError. -/
def parseLink (link : Link) : Except PyErr SearchResult :=
  match link.href with
  | some h => .ok ⟨pyStrip link.text, "https://indiankanoon.org" ++ h⟩
  | none => .error (.keyError "href")

/-- A Python list comprehension whose element expression can raise:
stops at the first raising element. -/
def mapExcept {α β : Type} (f : α → Except PyErr β) : List α → Except PyErr (List β)
  | [] => .ok []
  | a :: as =>
    match f a with
    | .error e => .error e
    | .ok b =>
      match mapExcept f as with
      | .error e => .error e
      | .ok bs => .ok (b :: bs)

/-- search_indiankanoon: fetch the search page; non-200 yields [];
otherwise parse the first 10 result-title anchors. -/
def search_indiankanoon (w : World) (query : String) : Except PyErr (List SearchResult) :=
  match fetch_url w (searchURL query) with
  | .error e => .error e
  | .ok resp =>
    if resp.status_code ≠ 200 then .ok []
    else mapExcept parseLink (resp.body.resultLinks.take 10)

/-! ### Extraction -/

/-- scrape_case: fetch the case page; non-200 yields the fetch-failure
sentinel document; otherwise join the fragment paragraph texts with
single spaces and truncate to MAX_CASE_TEXT_LENGTH, or the
no-text sentinel when no paragraphs matched. -/
def scrape_case (w : World) (url : String) : Except PyErr CaseDocument :=
  match fetch_url w url with
  | .error e => .error e
  | .ok resp =>
    if resp.status_code ≠ 200 then
      .ok ⟨"Unknown", "Failed to fetch case details.", url⟩
    else
      let paragraphs := resp.body.fragmentParagraphs
      let case_text :=
        if paragraphs = [] then "No case text found."
        else pyTruncate (pyJoin " " paragraphs) MAX_CASE_TEXT_LENGTH
      .ok ⟨"Unknown", case_text, url⟩

/-! ### Summarizer -/

/-- The fixed instruction prompt with the case text embedded verbatim
(the f-string of summarize_text). -/
def buildPrompt (text : String) : String :=
  "\n    You are an Indian legal AI assistant. Summarize the following court case with high accuracy, using only the provided text.\n    Do NOT add assumptions or external knowledge on your own.\n\n    Include:\n    - Case Title (if available)\n    - Key Dates (case, judgement, arrested, seen, call, evidence, person, action time and date.)\n    - Laws, Acts, or Articles cited (verbatim)\n    - Main Legal Issue (in brief)\n    - Court\x27s Decision & Reasoning (without opinion)\n    - Precedent or Impact (if mentioned in the case text)\n\n    Ensure the summary remains neutral, concise, and fact-based.\n\n    Case Text: " ++ text ++ "...\n    "

/-- summarize_text, instrumented with the list of prompts actually sent
to the generation oracle: builds the prompt, invokes the oracle once,
and post-processes with split at the end-of-reasoning delimiter; any
generation failure becomes the prefixed error string. -/
def summarize_text_run (g : Gen) (text : String) : String × List String :=
  let prompt := buildPrompt text
  match g prompt with
  | .ok decoded => (pyStrip (pyAfterFirst decoded "</think>"), [prompt])
  | .error e => ("Error in summarization: " ++ e, [prompt])

/-- summarize_text: the returned summary string. -/
def summarize_text (g : Gen) (text : String) : String :=
  (summarize_text_run g text).1

/-! ### Per-case pipeline -/

/-- process_case, instrumented with the prompts sent to the generation
oracle for this case: scrape the document; when the text is empty or
contains the substring "Failed to fetch", skip summarization and return
the unavailable sentinel; otherwise summarize the text. A scrape
exception propagates. -/
def process_case_run (w : World) (g : Gen) (c : SearchResult) :
    Except PyErr CaseSummary × List String :=
  match scrape_case w c.url with
  | .error e => (.error e, [])
  | .ok case_data =>
    if case_data.text = "" ∨ pyIn "Failed to fetch" case_data.text = true then
      (.ok ⟨c.title, "Summary unavailable due to missing case text."⟩, [])
    else
      let r := summarize_text_run g case_data.text
      (.ok ⟨c.title, r.1⟩, r.2)

/-- process_case: the per-case result, exceptions propagated. -/
def process_case (w : World) (g : Gen) (c : SearchResult) : Except PyErr CaseSummary :=
  (process_case_run w g c).1

/-! ### asyncio.gather -/

/-- Reading out the completed results array; a still-empty slot means a
task that never completed, on which gather would wait forever. -/
def collectAll {α : Type} : List (Option α) → Except PyErr (List α)
  | [] => .ok []
  | none :: _ => .error .unfinished
  | some v :: rest =>
    match collectAll rest with
    | .error e => .error e
    | .ok vs => .ok (v :: vs)

/-- Executing gather under a completion schedule: tasks complete in the
order the schedule lists their indices, each writing its outcome into
its own slot; the first task to complete with an exception makes gather
re-raise it; if all complete, the results are read out in task order. -/
def gatherGo {α : Type} (outcomes : List (Except PyErr α)) :
    List (Option α) → List Nat → Except PyErr (List α)
  | arr, [] => collectAll arr
  | arr, i :: rest =>
    match outcomes[i]? with
    | some (Except.ok v) => gatherGo outcomes (arr.set i (some v)) rest
    | some (Except.error e) => Except.error e
    | none => gatherGo outcomes arr rest

/-- asyncio.gather over already-spawned tasks, parameterized by the
completion order of the tasks. -/
def gatherExec {α : Type} (outcomes : List (Except PyErr α)) (order : List Nat) :
    Except PyErr (List α) :=
  gatherGo outcomes (List.replicate outcomes.length none) order

/-! ### Whole-query pipeline -/

/-- fetch_and_process_cases: search, return None when the search yields
nothing, otherwise spawn one process_case task per search result and
gather them. The completion order of the tasks is a parameter. -/
def fetch_and_process_cases (w : World) (g : Gen) (order : List Nat) (query : String) :
    Except PyErr (Option (List CaseSummary)) :=
  match search_indiankanoon w query with
  | .error e => .error e
  | .ok cases =>
    if cases = [] then .ok none
    else
      match gatherExec (cases.map (fun c => process_case w g c)) order with
      | .error e => .error e
      | .ok results => .ok (some results)

/-- run_async_task: drives the async pipeline from a synchronous call
site; asyncio.run adds no behavior of its own here. -/
def run_async_task (w : World) (g : Gen) (order : List Nat) (query : String) :
    Except PyErr (Option (List CaseSummary)) :=
  fetch_and_process_cases w g order query

/-! ### The concurrency gate

fetch_url wraps the GET in an `async with semaphore` block over
asyncio.Semaphore(MAX_CONCURRENT_REQUESTS).  We model the fleet of
simultaneously scheduled fetch_url invocations as a transition
system: each task is pending, in flight (slot acquired, request
outstanding), or finished.  Entering the block acquires a slot and
suspends while the gate is saturated; leaving the block, normally or
through an exception, releases the slot. -/

/-- The phase of one scheduled fetch_url invocation; a finished fetch
records whether the request completed normally or raised. -/
inductive FetchPhase where
  | pending
  | inFlight
  | finished (failed : Bool)
deriving DecidableEq, Repr

/-- Global state of the gate: the semaphore's acquired count and the
phase of every scheduled fetch. -/
structure GateState where
  acquired : Nat
  tasks : List FetchPhase
deriving DecidableEq, Repr

/-- One scheduler step: a pending fetch may acquire a slot only while
the acquired count is below the cap; an in-flight fetch completing,
normally or with an exception, always releases its slot. -/
inductive GateStep : GateState → GateState → Prop where
  | acquire (s : GateState) (i : Nat)
      (hp : s.tasks[i]? = some .pending)
      (hroom : s.acquired < MAX_CONCURRENT_REQUESTS) :
      GateStep s ⟨s.acquired + 1, s.tasks.set i .inFlight⟩
  | release (s : GateState) (i : Nat) (failed : Bool)
      (hf : s.tasks[i]? = some .inFlight) :
      GateStep s ⟨s.acquired - 1, s.tasks.set i (.finished failed)⟩

/-- Initial state: semaphore fresh, n fetches scheduled and pending. -/
def initState (n : Nat) : GateState :=
  ⟨0, List.replicate n .pending⟩

/-- Reachability in zero or more scheduler steps. -/
inductive Reaches : GateState → GateState → Prop where
  | refl (s : GateState) : Reaches s s
  | step {s t u : GateState} : Reaches s t → GateStep t u → Reaches s u

/-- Number of fetches currently holding a slot. -/
def countInFlight (tasks : List FetchPhase) : Nat :=
  tasks.countP (fun p => p = .inFlight)

/-! ### String lemmas -/

theorem stripLead_append (xs ys : List Char) : stripLead xs (xs ++ ys) = some ys := by
  induction xs with
  | nil => rfl
  | cons c cs ih => simp [stripLead, ih]

theorem findSplit_first (sep b : List Char) (hsep : sep ≠ []) :
    ∀ a : List Char,
      (∀ i, i < a.length → stripLead sep ((a ++ sep ++ b).drop i) = none) →
      findSplit sep (a ++ sep ++ b) = some (a, b) := by
  intro a
  induction a with
  | nil =>
    intro _
    cases sep with
    | nil => exact absurd rfl hsep
    | cons c cs =>
      have h1 : stripLead (c :: cs) (c :: (cs ++ b)) = some b := by
        have h2 := stripLead_append (c :: cs) b
        simpa [List.cons_append] using h2
      simp [findSplit, h1, List.cons_append]
  | cons c a ih =>
    intro hfirst
    have h0 : stripLead sep (c :: (a ++ sep ++ b)) = none := by
      have h00 := hfirst 0 (by simp)
      simpa [List.cons_append] using h00
    have hrec : findSplit sep (a ++ sep ++ b) = some (a, b) := by
      apply ih
      intro i hi
      have hs := hfirst (i + 1) (by simpa using Nat.succ_lt_succ hi)
      simpa [List.cons_append, List.drop_succ_cons] using hs
    have h0x : stripLead sep (c :: (a ++ (sep ++ b))) = none := by
      simpa [List.append_assoc] using h0
    have hrecx : findSplit sep (a ++ (sep ++ b)) = some (a, b) := by
      simpa [List.append_assoc] using hrec
    simp [List.cons_append, findSplit, h0x, hrecx]

/-! ### mapExcept lemmas -/

theorem mapExcept_map {α β : Type} (f : α → Except PyErr β) (g : α → β) (l : List α)
    (h : ∀ a ∈ l, f a = .ok (g a)) : mapExcept f l = .ok (l.map g) := by
  induction l with
  | nil => rfl
  | cons a as ih =>
    have ha := h a (by simp)
    have hrec := ih (fun x hx => h x (by simp [hx]))
    simp [mapExcept, ha, hrec]

theorem mapExcept_error_uniform {α β : Type} (f : α → Except PyErr β) (g : α → β)
    (e : PyErr) (l : List α)
    (hall : ∀ a ∈ l, f a = .ok (g a) ∨ f a = .error e)
    (hsome : ∃ a ∈ l, f a = .error e) : mapExcept f l = .error e := by
  induction l with
  | nil => simp at hsome
  | cons a as ih =>
    rcases hall a (by simp) with ha | ha
    · obtain ⟨x, hx, hfx⟩ := hsome
      rcases List.mem_cons.mp hx with rfl | hx
      · rw [ha] at hfx; exact absurd hfx (by simp)
      · have hrec := ih (fun y hy => hall y (by simp [hy])) ⟨x, hx, hfx⟩
        simp [mapExcept, ha, hrec]
    · simp [mapExcept, ha]

theorem mapExcept_length {α β : Type} (f : α → Except PyErr β) :
    ∀ (l : List α) (bs : List β), mapExcept f l = .ok bs → bs.length = l.length := by
  intro l
  induction l with
  | nil => intro bs h; simp [mapExcept] at h; simp [← h]
  | cons a as ih =>
    intro bs h
    simp only [mapExcept] at h
    cases hfa : f a with
    | error e => rw [hfa] at h; simp at h
    | ok b =>
      rw [hfa] at h
      cases hrec : mapExcept f as with
      | error e => rw [hrec] at h; simp at h
      | ok bs2 =>
        rw [hrec] at h
        simp at h
        subst h
        simp [ih bs2 hrec]

theorem map_ok_exists {α β : Type} (f : α → Except PyErr β) (l : List α)
    (h : ∀ a ∈ l, ∃ b, f a = .ok b) :
    ∃ bs : List β, bs.length = l.length ∧ l.map f = bs.map Except.ok ∧
      ∀ i (hi : i < l.length) (hj : i < bs.length),
        f (l.get ⟨i, hi⟩) = Except.ok (bs.get ⟨i, hj⟩) := by
  induction l with
  | nil => exact ⟨[], rfl, rfl, fun i hi _ => absurd hi (by simp)⟩
  | cons a as ih =>
    obtain ⟨b, hb⟩ := h a (by simp)
    obtain ⟨bs, hlen, hmap, hget⟩ := ih (fun x hx => h x (by simp [hx]))
    refine ⟨b :: bs, by simp [hlen], by simp [hb, hmap], ?_⟩
    intro i hi hj
    match i with
    | 0 => simpa using hb
    | Nat.succ n =>
      have hn := hget n (by simpa using hi) (by simpa using hj)
      simpa using hn

/-! ### gather lemmas -/

theorem lt_of_getElem?_some {α : Type} {l : List α} {n : Nat} {a : α}
    (h : l[n]? = some a) : n < l.length := by
  by_contra hge
  push_neg at hge
  rw [List.getElem?_eq_none hge] at h
  simp at h

theorem collectAll_map_some {α : Type} (vs : List α) :
    collectAll (vs.map some) = .ok vs := by
  induction vs with
  | nil => rfl
  | cons v vs ih => simp [collectAll, ih]

theorem gatherGo_all_ok {α : Type} (vs : List α) :
    ∀ (order : List Nat) (arr : List (Option α)),
      arr.length = vs.length →
      (∀ (j : Nat) (v : α), vs[j]? = some v → arr[j]? = some none ∨ arr[j]? = some (some v)) →
      (∀ (j : Nat) (v : α), vs[j]? = some v → j ∈ order ∨ arr[j]? = some (some v)) →
      gatherGo (vs.map Except.ok) arr order = .ok vs := by
  intro order
  induction order with
  | nil =>
    intro arr hlen _ hcov
    have harr : arr = vs.map some := by
      apply List.ext_getElem?
      intro n
      cases hv : vs[n]? with
      | some v =>
        rcases hcov n v hv with h | h
        · simp at h
        · rw [h, List.getElem?_map, hv]; rfl
      | none =>
        have hn : vs.length ≤ n := by
          by_contra hlt
          push_neg at hlt
          rw [List.getElem?_eq_getElem hlt] at hv
          simp at hv
        rw [List.getElem?_eq_none (by omega), List.getElem?_eq_none (by simpa using hn)]
    rw [gatherGo, harr]
    exact collectAll_map_some vs
  | cons i rest ih =>
    intro arr hlen hinv hcov
    by_cases hi : i < vs.length
    · have hout : (vs.map Except.ok : List (Except PyErr α))[i]? = some (Except.ok vs[i]) := by
        rw [List.getElem?_map, List.getElem?_eq_getElem hi]; rfl
      rw [gatherGo, hout]
      apply ih
      · simp [hlen]
      · intro j v hv
        rcases eq_or_ne i j with rfl | hne
        · right
          rw [List.getElem?_set]
          have : vs[i] = v := by
            rw [List.getElem?_eq_getElem hi] at hv
            exact Option.some.inj hv
          simp [hlen, hi, this]
        · rw [List.getElem?_set]
          simpa [hne] using hinv j v hv
      · intro j v hv
        rcases eq_or_ne i j with rfl | hne
        · right
          rw [List.getElem?_set]
          have : vs[i] = v := by
            rw [List.getElem?_eq_getElem hi] at hv
            exact Option.some.inj hv
          simp [hlen, hi, this]
        · rcases hcov j v hv with hj | hj
          · rcases List.mem_cons.mp hj with rfl | hj
            · exact absurd rfl hne
            · exact Or.inl hj
          · right
            rw [List.getElem?_set]
            simpa [hne] using hj
    · have hout : (vs.map Except.ok : List (Except PyErr α))[i]? = none := by
        apply List.getElem?_eq_none
        simpa using Nat.le_of_not_lt hi
      rw [gatherGo, hout]
      apply ih arr hlen hinv
      intro j v hv
      rcases hcov j v hv with hj | hj
      · rcases List.mem_cons.mp hj with rfl | hj
        · exact absurd (lt_of_getElem?_some hv) hi
        · exact Or.inl hj
      · exact Or.inr hj

theorem gatherExec_all_ok {α : Type} (vs : List α) (order : List Nat)
    (hcov : ∀ j, j < vs.length → j ∈ order) :
    gatherExec (vs.map Except.ok) order = .ok vs := by
  apply gatherGo_all_ok
  · simp
  · intro j v hv
    left
    rw [List.getElem?_replicate]
    simp [lt_of_getElem?_some hv]
  · intro j v hv
    exact Or.inl (hcov j (lt_of_getElem?_some hv))

/-! ### Gate lemmas -/

theorem countP_set (p : FetchPhase → Bool) :
    ∀ (l : List FetchPhase) (i : Nat) (v x : FetchPhase), l[i]? = some x →
      (l.set i v).countP p =
        l.countP p + (if p v then 1 else 0) - (if p x then 1 else 0) := by
  intro l
  induction l with
  | nil => intro i v x h; simp at h
  | cons a as ih =>
    intro i v x h
    match i with
    | 0 =>
      have hx : a = x := by simpa using h
      simp only [← hx, List.set_cons_zero, List.countP_cons]
      by_cases hpa : p a = true <;> by_cases hpv : p v = true <;>
        simp [hpa, hpv] <;> omega
    | Nat.succ n =>
      have hn : as[n]? = some x := by simpa using h
      have hcount : p x = true → 0 < as.countP p :=
        fun hpx => List.countP_pos_iff.mpr ⟨x, List.getElem?_mem hn, hpx⟩
      have hihn := ih n v x hn
      simp only [List.set_cons_succ, List.countP_cons, hihn]
      by_cases hpx : p x = true
      · have h1 : 0 < as.countP p := hcount hpx
        by_cases hpa : p a = true <;> by_cases hpv : p v = true <;>
          simp [hpx, hpa, hpv] <;> omega
      · by_cases hpa : p a = true <;> by_cases hpv : p v = true <;>
          simp [hpx, hpa, hpv] <;> omega

/-! ### Pipeline helper lemmas -/

theorem scrape_case_ok (w : World) (url : String) (h : w url ≠ .timeout) :
    ∃ d, scrape_case w url = Except.ok d := by
  unfold scrape_case fetch_url
  cases hw : w url with
  | timeout => exact absurd hw h
  | response s b =>
    dsimp only
    by_cases hs : s ≠ 200
    · rw [if_pos hs]
      exact ⟨_, rfl⟩
    · rw [if_neg hs]
      exact ⟨_, rfl⟩

theorem process_case_ok (w : World) (g : Gen) (c : SearchResult)
    (h : w c.url ≠ .timeout) : ∃ v, process_case w g c = Except.ok v := by
  obtain ⟨d, hd⟩ := scrape_case_ok w c.url h
  unfold process_case process_case_run
  rw [hd]
  dsimp only
  by_cases hskip : d.text = "" ∨ pyIn "Failed to fetch" d.text = true
  · rw [if_pos hskip]
    exact ⟨_, rfl⟩
  · rw [if_neg hskip]
    exact ⟨_, rfl⟩

theorem search_len_le (w : World) (q : String) (cases : List SearchResult)
    (h : search_indiankanoon w q = .ok cases) : cases.length ≤ 10 := by
  unfold search_indiankanoon fetch_url at h
  cases hw : w (searchURL q) with
  | timeout => rw [hw] at h; simp at h
  | response s b =>
    rw [hw] at h
    dsimp only at h
    by_cases hs : s ≠ 200
    · rw [if_pos hs] at h
      injection h with h2
      rw [← h2]
      simp
    · rw [if_neg hs] at h
      have hlen := mapExcept_length parseLink _ _ h
      rw [hlen, List.length_take]
      omega

theorem string_length_mk (l : List Char) : (⟨l⟩ : String).length = l.length := rfl

theorem pyTruncate_length (s : String) (n : Nat) :
    (pyTruncate s n).length = min n s.length := by
  rw [pyTruncate, string_length_mk, List.length_take]
  rfl

theorem summarize_text_run_snd (g : Gen) (t : String) :
    (summarize_text_run g t).2 = [buildPrompt t] := by
  unfold summarize_text_run
  dsimp only
  cases hg : g (buildPrompt t) <;> rfl

/-! ### Concrete runs used as witnesses and counterexamples -/

/-- A generation oracle that always decodes to "ok". -/
def genOk : Gen := fun _ => Except.ok "ok"

/-- An oracle whose decoded output holds two end-of-reasoning delimiters. -/
def genTwoThinks : Gen := fun _ => Except.ok "a</think>b</think>c"

/-- An oracle whose decoded output has no delimiter but outer whitespace. -/
def genSpaces : Gen := fun _ => Except.ok " d "

/-- An oracle whose decoded output has one delimiter. -/
def genOneThink : Gen := fun _ => Except.ok "x</think> y "

/-- An oracle whose generation step always raises. -/
def genBoom : Gen := fun _ => Except.error "boom"

/-- A network where the search for "q" finds one case whose page then
times out. -/
def w1 : World := fun url =>
  if url = searchURL "q" then
    .response 200 ⟨[⟨"Case A", some "/doc/1/"⟩], []⟩
  else .timeout

/-- A network where the search for "land" finds two cases and every
case page returns one paragraph. -/
def w1b : World := fun url =>
  if url = searchURL "land" then
    .response 200 ⟨[⟨"Case A", some "/doc/1/"⟩, ⟨"Case B", some "/doc/2/"⟩], []⟩
  else .response 200 ⟨[], ["Text one."]⟩

/-- A network where the search for "q" finds two cases; the first page
responds, the second page times out. -/
def w2 : World := fun url =>
  if url = searchURL "q" then
    .response 200 ⟨[⟨"A", some "/doc/1/"⟩, ⟨"B", some "/doc/2/"⟩], []⟩
  else if url = "https://indiankanoon.org/doc/1/" then
    .response 200 ⟨[], ["Some case text."]⟩
  else .timeout

/-- A network whose search page has a middle result anchor with no href. -/
def w4 : World := fun url =>
  if url = searchURL "q" then
    .response 200 ⟨[⟨"A", some "/doc/1/"⟩, ⟨"B", none⟩, ⟨"C", some "/doc/3/"⟩], []⟩
  else .timeout

/-- A network whose search page has two well-formed result anchors. -/
def w4b : World := fun url =>
  if url = searchURL "tax" then
    .response 200 ⟨[⟨" A ", some "/doc/1/"⟩, ⟨"B", some "/doc/2/"⟩], []⟩
  else .timeout

/-- A network where every page returns HTTP 500. -/
def w5 : World := fun _ => .response 500 ⟨[], []⟩

/-- A network where every page returns HTTP 200 with no paragraphs. -/
def w8 : World := fun _ => .response 200 ⟨[], []⟩

/-- A network whose case page carries genuine case text that happens to
contain the words "Failed to fetch". -/
def w10 : World := fun _ =>
  .response 200 ⟨[], ["The clerk Failed to fetch the records"]⟩

/-! ### Claims -/

/-- Claim C5: for every case whose extraction returns the fetch-failure
sentinel text "Failed to fetch case details.", process_case produces
the fixed unavailable sentinel and the summarizer is never invoked for
that case (no prompt is sent to the generation oracle). -/
theorem C5_fetch_failure_sentinel_skips_summarizer (w : World) (g : Gen) (c : SearchResult)
    (d : CaseDocument) (hd : scrape_case w c.url = Except.ok d)
    (htext : d.text = "Failed to fetch case details.") :
    process_case_run w g c =
      (Except.ok ⟨c.title, "Summary unavailable due to missing case text."⟩, []) := by
  unfold process_case_run
  rw [hd]
  dsimp only
  have hcond : d.text = "" ∨ pyIn "Failed to fetch" d.text = true := by
    right
    rw [htext]
    decide
  rw [if_pos hcond]

/-- Witness for C5 on a concrete run: a page answering HTTP 500 yields
the fetch-failure sentinel document, and processing that case returns
the unavailable sentinel with no prompt sent to the oracle. -/
theorem C5_witness :
    scrape_case w5 "https://indiankanoon.org/doc/5/" =
      Except.ok ⟨"Unknown", "Failed to fetch case details.", "https://indiankanoon.org/doc/5/"⟩ ∧
    process_case_run w5 genOk ⟨"T", "https://indiankanoon.org/doc/5/"⟩ =
      (Except.ok ⟨"T", "Summary unavailable due to missing case text."⟩, []) :=
  ⟨rfl, C5_fetch_failure_sentinel_skips_summarizer w5 genOk ⟨"T", "https://indiankanoon.org/doc/5/"⟩
    ⟨"Unknown", "Failed to fetch case details.", "https://indiankanoon.org/doc/5/"⟩ rfl rfl⟩

/-- Claim C8: a page fetched with status 200 but with no matching
paragraphs extracts the sentinel "No case text found.", and that
sentinel is passed to the summarizer as normal text (the prompt built
from it is sent to the generation oracle). -/
theorem C8_empty_extraction_summarized (w : World) (g : Gen) (c : SearchResult) (b : Html)
    (hw : w c.url = .response 200 b) (hpar : b.fragmentParagraphs = []) :
    scrape_case w c.url = Except.ok ⟨"Unknown", "No case text found.", c.url⟩ ∧
    process_case_run w g c =
      (Except.ok ⟨c.title, summarize_text g "No case text found."⟩,
        [buildPrompt "No case text found."]) := by
  have hscrape : scrape_case w c.url = Except.ok ⟨"Unknown", "No case text found.", c.url⟩ := by
    unfold scrape_case fetch_url
    rw [hw]
    dsimp only
    rw [if_neg (by omega)]
    simp [hpar]
  refine ⟨hscrape, ?_⟩
  unfold process_case_run
  rw [hscrape]
  dsimp only
  rw [if_neg (by decide)]
  rw [Prod.ext_iff]
  exact ⟨rfl, summarize_text_run_snd g "No case text found."⟩

/-- Witness for C8 on a concrete run: an empty page yields the no-text
sentinel, which is then summarized rather than skipped. -/
theorem C8_witness :
    w8 "u8" = FetchResult.response 200 ⟨[], []⟩ ∧
    (scrape_case w8 "u8" = Except.ok ⟨"Unknown", "No case text found.", "u8"⟩ ∧
     process_case_run w8 genOk ⟨"T8", "u8"⟩ =
       (Except.ok ⟨"T8", summarize_text genOk "No case text found."⟩,
         [buildPrompt "No case text found."])) :=
  ⟨rfl, C8_empty_extraction_summarized w8 genOk ⟨"T8", "u8"⟩ ⟨[], []⟩ rfl rfl⟩

/-- Claim C9: any failure of the generation step is caught and turned
into a string prefixed "Error in summarization: "; summarize_text is a
total function into strings, so it never raises past this boundary. -/
theorem C9_generation_failure_caught (g : Gen) (t : String) (e : String)
    (h : g (buildPrompt t) = Except.error e) :
    summarize_text g t = "Error in summarization: " ++ e := by
  unfold summarize_text summarize_text_run
  dsimp only
  rw [h]

/-- Witness for C9 on a concrete run: an oracle that raises "boom". -/
theorem C9_witness :
    genBoom (buildPrompt "text") = Except.error "boom" ∧
    summarize_text genBoom "text" = "Error in summarization: boom" :=
  ⟨rfl, C9_generation_failure_caught genBoom "text" "boom" rfl⟩

/-- Claim C10: the skip test is substring containment, not equality
with the fetch-failure sentinel: any extracted text containing
"Failed to fetch" anywhere makes process_case skip summarization and
return the unavailable sentinel. -/
theorem C10_substring_skip (w : World) (g : Gen) (c : SearchResult) (d : CaseDocument)
    (hd : scrape_case w c.url = Except.ok d)
    (hsub : pyIn "Failed to fetch" d.text = true) :
    process_case_run w g c =
      (Except.ok ⟨c.title, "Summary unavailable due to missing case text."⟩, []) := by
  unfold process_case_run
  rw [hd]
  dsimp only
  rw [if_pos (Or.inr hsub)]

/-- Claim C6: in every state reachable from any fleet of simultaneously
scheduled fetches, the semaphore count equals the number of in-flight
fetches (each fetch acquires before its request and releases on every
completion, normal or failed), and it never exceeds
MAX_CONCURRENT_REQUESTS. -/
theorem C6_gate_never_exceeds_cap (n : Nat) (s : GateState)
    (h : Reaches (initState n) s) :
    s.acquired = countInFlight s.tasks ∧ s.acquired ≤ MAX_CONCURRENT_REQUESTS := by
  induction h with
  | refl =>
    constructor
    · show 0 = countInFlight (List.replicate n FetchPhase.pending)
      unfold countInFlight
      rw [eq_comm, List.countP_eq_zero]
      intro a ha
      rw [List.mem_replicate] at ha
      simp [ha.2]
    · show 0 ≤ MAX_CONCURRENT_REQUESTS
      omega
  | @step t u hr hstep ih =>
    cases hstep with
    | acquire i hp hroom =>
      obtain ⟨ih1, _⟩ := ih
      have hc := countP_set (fun q => q = FetchPhase.inFlight) t.tasks i .inFlight .pending hp
      have hc2 : List.countP (fun q => decide (q = FetchPhase.inFlight))
          (t.tasks.set i FetchPhase.inFlight) =
          List.countP (fun q => decide (q = FetchPhase.inFlight)) t.tasks + 1 := by
        rw [hc]
        simp
      constructor
      · show t.acquired + 1 = countInFlight (t.tasks.set i .inFlight)
        unfold countInFlight at ih1 ⊢
        rw [hc2]
        omega
      · show t.acquired + 1 ≤ MAX_CONCURRENT_REQUESTS
        omega
    | release i failed hf =>
      obtain ⟨ih1, ih2⟩ := ih
      have hc := countP_set (fun q => q = FetchPhase.inFlight) t.tasks i (.finished failed) .inFlight hf
      have hc2 : List.countP (fun q => decide (q = FetchPhase.inFlight))
          (t.tasks.set i (FetchPhase.finished failed)) =
          List.countP (fun q => decide (q = FetchPhase.inFlight)) t.tasks - 1 := by
        rw [hc]
        simp
      constructor
      · show t.acquired - 1 = countInFlight (t.tasks.set i (.finished failed))
        unfold countInFlight at ih1 ⊢
        rw [hc2]
        omega
      · show t.acquired - 1 ≤ MAX_CONCURRENT_REQUESTS
        omega

/-- Witness for C6 on a concrete reachable state: two scheduled
fetches, the first has acquired its slot. -/
theorem C6_witness :
    Reaches (initState 2) ⟨1, [FetchPhase.inFlight, FetchPhase.pending]⟩ ∧
    (1 = countInFlight [FetchPhase.inFlight, FetchPhase.pending] ∧
      1 ≤ MAX_CONCURRENT_REQUESTS) := by
  have hr : Reaches (initState 2) ⟨1, [FetchPhase.inFlight, FetchPhase.pending]⟩ :=
    Reaches.step (Reaches.refl (initState 2))
      (GateStep.acquire (initState 2) 0 rfl (by decide))
  exact ⟨hr, C6_gate_never_exceeds_cap 2 ⟨1, [FetchPhase.inFlight, FetchPhase.pending]⟩ hr⟩

/-- Claim C7: extracted case text never exceeds MAX_CASE_TEXT_LENGTH,
and when a successfully fetched page yields joined paragraph text
longer than that bound, the stored text is the truncation to exactly
MAX_CASE_TEXT_LENGTH characters. -/
theorem C7_truncation (w : World) (url : String) :
    (∀ d, scrape_case w url = Except.ok d → d.text.length ≤ MAX_CASE_TEXT_LENGTH) ∧
    (∀ b : Html, w url = .response 200 b → b.fragmentParagraphs ≠ [] →
      MAX_CASE_TEXT_LENGTH < (pyJoin " " b.fragmentParagraphs).length →
      scrape_case w url =
        Except.ok ⟨"Unknown",
          pyTruncate (pyJoin " " b.fragmentParagraphs) MAX_CASE_TEXT_LENGTH, url⟩ ∧
      (pyTruncate (pyJoin " " b.fragmentParagraphs) MAX_CASE_TEXT_LENGTH).length =
        MAX_CASE_TEXT_LENGTH) := by
  constructor
  · intro d hd
    unfold scrape_case fetch_url at hd
    cases hw : w url with
    | timeout => rw [hw] at hd; simp at hd
    | response s b =>
      rw [hw] at hd
      dsimp only at hd
      by_cases hs : s ≠ 200
      · rw [if_pos hs] at hd
        injection hd with hd2
        rw [← hd2]
        show ("Failed to fetch case details." : String).length ≤ MAX_CASE_TEXT_LENGTH
        decide
      · rw [if_neg hs] at hd
        by_cases hpar : b.fragmentParagraphs = []
        · rw [if_pos hpar] at hd
          injection hd with hd2
          rw [← hd2]
          show ("No case text found." : String).length ≤ MAX_CASE_TEXT_LENGTH
          decide
        · rw [if_neg hpar] at hd
          injection hd with hd2
          rw [← hd2]
          dsimp only
          rw [pyTruncate_length]
          omega
  · intro b hw hpar hlong
    have hscrape : scrape_case w url =
        Except.ok ⟨"Unknown",
          pyTruncate (pyJoin " " b.fragmentParagraphs) MAX_CASE_TEXT_LENGTH, url⟩ := by
      unfold scrape_case fetch_url
      rw [hw]
      dsimp only
      rw [if_neg (by omega), if_neg hpar]
    refine ⟨hscrape, ?_⟩
    rw [pyTruncate_length]
    omega

/-- A big paragraph of 9600 characters, above the truncation bound. -/
def bigText : String := ⟨List.replicate 9600 'a'⟩

/-- A network whose case page yields the big paragraph. -/
def w7 : World := fun _ => .response 200 ⟨[], [bigText]⟩

/-- Witness for C7 on a concrete run: a 9600-character paragraph is cut
to exactly 9500 characters. -/
theorem C7_witness :
    w7 "u7" = FetchResult.response 200 ⟨[], [bigText]⟩ ∧
    ([bigText] : List String) ≠ [] ∧
    MAX_CASE_TEXT_LENGTH < (pyJoin " " [bigText]).length ∧
    (scrape_case w7 "u7" =
      Except.ok ⟨"Unknown", pyTruncate (pyJoin " " [bigText]) MAX_CASE_TEXT_LENGTH, "u7"⟩ ∧
    (pyTruncate (pyJoin " " [bigText]) MAX_CASE_TEXT_LENGTH).length = MAX_CASE_TEXT_LENGTH) := by
  have hlong : MAX_CASE_TEXT_LENGTH < (pyJoin " " [bigText]).length := by
    show MAX_CASE_TEXT_LENGTH < bigText.length
    rw [bigText, string_length_mk, List.length_replicate]
    decide
  exact ⟨rfl, by simp, hlong, (C7_truncation w7 "u7").2 ⟨[], [bigText]⟩ rfl (by simp) hlong⟩

/-- Counterexample to C1 as stated: a query whose search yields one
result, whose case page then times out, makes the pipeline raise the
timeout exception — it returns neither the empty-result signal nor one
CaseSummary record. -/
theorem C1_counterexample :
    search_indiankanoon w1 "q" =
      Except.ok [⟨"Case A", "https://indiankanoon.org/doc/1/"⟩] ∧
    run_async_task w1 genOk [0] "q" =
      Except.error (PyErr.timeoutError "https://indiankanoon.org/doc/1/") :=
  ⟨rfl, rfl⟩

/-- Claim C1 (amended): for every query whose search step yields N
results (N is at most 10) and whose N case-page fetches all complete
with an HTTP response (no timeout), the pipeline returns the
empty-result signal exactly when N is zero, and otherwise exactly N
CaseSummary records, the i-th being the outcome of processing the i-th
search result, for every completion order that completes every task. -/
theorem C1_amended_pipeline_shape (w : World) (g : Gen) (q : String)
    (cases : List SearchResult) (order : List Nat)
    (hs : search_indiankanoon w q = Except.ok cases)
    (hnt : ∀ c ∈ cases, w c.url ≠ FetchResult.timeout)
    (hcov : ∀ i, i < cases.length → i ∈ order) :
    cases.length ≤ 10 ∧
    (cases = [] → run_async_task w g order q = Except.ok none) ∧
    (cases ≠ [] → ∃ summaries : List CaseSummary,
      run_async_task w g order q = Except.ok (some summaries) ∧
      summaries.length = cases.length ∧
      ∀ i (hi : i < cases.length) (hj : i < summaries.length),
        process_case w g (cases.get ⟨i, hi⟩) = Except.ok (summaries.get ⟨i, hj⟩)) := by
  refine ⟨search_len_le w q cases hs, ?_, ?_⟩
  · intro hnil
    unfold run_async_task fetch_and_process_cases
    rw [hs]
    dsimp only
    rw [if_pos hnil]
  · intro hne
    obtain ⟨bs, hlen, hmap, hget⟩ := map_ok_exists (fun c => process_case w g c) cases
      (fun c hc => process_case_ok w g c (hnt c hc))
    have hcov2 : ∀ j, j < bs.length → j ∈ order := by
      intro j hj
      apply hcov
      omega
    refine ⟨bs, ?_, hlen, hget⟩
    unfold run_async_task fetch_and_process_cases
    rw [hs]
    dsimp only
    rw [if_neg hne, hmap, gatherExec_all_ok bs order hcov2]

/-- Witness for amended C1 on a concrete run: a search with two
results, both case pages responding, completion order reversed; the
pipeline still returns the two summaries in search order. -/
theorem C1_witness :
    (∃ summaries : List CaseSummary,
      run_async_task w1b genOk [1, 0] "land" = Except.ok (some summaries) ∧
      summaries.length = 2) ∧
    run_async_task w1b genOk [1, 0] "land" =
      Except.ok (some [⟨"Case A", "ok"⟩, ⟨"Case B", "ok"⟩]) := by
  constructor
  · have h := C1_amended_pipeline_shape w1b genOk "land"
      [⟨"Case A", "https://indiankanoon.org/doc/1/"⟩,
        ⟨"Case B", "https://indiankanoon.org/doc/2/"⟩]
      [1, 0] rfl (by decide) (by decide)
    obtain ⟨-, -, h3⟩ := h
    obtain ⟨summaries, hrun, hlen, -⟩ := h3 (by decide)
    exact ⟨summaries, hrun, by rw [hlen]; rfl⟩
  · rfl

/-- Counterexample to C2 as stated: a case page that times out makes
extraction raise the timeout exception instead of yielding the
sentinel document, and that exception propagates out of the whole
pipeline, discarding the sibling case that had succeeded. -/
theorem C2_counterexample :
    scrape_case w2 "https://indiankanoon.org/doc/2/" =
      Except.error (PyErr.timeoutError "https://indiankanoon.org/doc/2/") ∧
    fetch_and_process_cases w2 genOk [0, 1] "q" =
      Except.error (PyErr.timeoutError "https://indiankanoon.org/doc/2/") :=
  ⟨rfl, rfl⟩

/-- Claim C2 (amended): a fetch that completes with a non-success HTTP
status makes extraction yield the sentinel document text without
raising, and processing such a case returns the unavailable-summary
record rather than an exception, so it cannot disturb sibling cases;
but a fetch that times out raises an exception that propagates out of
extraction. -/
theorem C2_amended_fetch_failure (w : World) (g : Gen) (url : String) :
    (∀ (s : Nat) (b : Html), w url = .response s b → s ≠ 200 →
      scrape_case w url =
        Except.ok ⟨"Unknown", "Failed to fetch case details.", url⟩) ∧
    (∀ (t : String) (s : Nat) (b : Html), w url = .response s b → s ≠ 200 →
      process_case_run w g ⟨t, url⟩ =
        (Except.ok ⟨t, "Summary unavailable due to missing case text."⟩, [])) ∧
    (w url = .timeout →
      scrape_case w url = Except.error (PyErr.timeoutError url)) := by
  have h1 : ∀ (s : Nat) (b : Html), w url = .response s b → s ≠ 200 →
      scrape_case w url =
        Except.ok ⟨"Unknown", "Failed to fetch case details.", url⟩ := by
    intro s b hw hs
    unfold scrape_case fetch_url
    rw [hw]
    dsimp only
    rw [if_pos hs]
  refine ⟨h1, ?_, ?_⟩
  · intro t s b hw hs
    unfold process_case_run
    rw [h1 s b hw hs]
    dsimp only
    rw [if_pos (Or.inr (by decide))]
  · intro hw
    unfold scrape_case fetch_url
    rw [hw]

/-- Witness for amended C2 on a concrete run: an HTTP 500 page yields
the sentinel document and the unavailable-summary record. -/
theorem C2_witness :
    w5 "u2" = FetchResult.response 500 ⟨[], []⟩ ∧
    (500 : Nat) ≠ 200 ∧
    scrape_case w5 "u2" =
      Except.ok ⟨"Unknown", "Failed to fetch case details.", "u2"⟩ ∧
    process_case_run w5 genOk ⟨"T2", "u2"⟩ =
      (Except.ok ⟨"T2", "Summary unavailable due to missing case text."⟩, []) := by
  refine ⟨rfl, by decide, ?_, ?_⟩
  · exact (C2_amended_fetch_failure w5 genOk "u2").1 500 ⟨[], []⟩ rfl (by decide)
  · exact (C2_amended_fetch_failure w5 genOk "u2").2.1 "T2" 500 ⟨[], []⟩ rfl (by decide)

/-- Counterexample to C3 as stated: with two occurrences of the
delimiter in the decoded output "a</think>b</think>c", the returned
summary is "b</think>c" (text after the first occurrence), not the
text "c" after the last occurrence; and with no occurrence, the output
" d " comes back trimmed to "d", not as the full decoded output. -/
theorem C3_counterexample :
    (summarize_text genTwoThinks "q" = "b</think>c" ∧
      summarize_text genTwoThinks "q" ≠ "c") ∧
    (summarize_text genSpaces "q" = "d" ∧
      summarize_text genSpaces "q" ≠ " d ") := by
  refine ⟨⟨rfl, ?_⟩, ⟨rfl, ?_⟩⟩ <;> decide

/-- Claim C3 (amended): summarize_text keeps only the text after the
FIRST occurrence of the end-of-reasoning delimiter, trimmed; when the
delimiter does not occur, it returns the full decoded output, trimmed.
The first-occurrence decomposition is phrased as: the delimiter starts
nowhere inside the prefix a. -/
theorem C3_amended_split_first (g : Gen) (t : String) (d : String) (a b : List Char)
    (hg : g (buildPrompt t) = Except.ok d) :
    (d.data = a ++ "</think>".data ++ b →
      (∀ i, i < a.length →
        stripLead "</think>".data ((a ++ "</think>".data ++ b).drop i) = none) →
      summarize_text g t = pyStrip ⟨b⟩) ∧
    (findSplit "</think>".data d.data = none → summarize_text g t = pyStrip d) := by
  constructor
  · intro hdata hfirst
    unfold summarize_text summarize_text_run
    dsimp only
    rw [hg]
    dsimp only
    unfold pyAfterFirst
    rw [hdata, findSplit_first "</think>".data b (by decide) a hfirst]
  · intro hnone
    unfold summarize_text summarize_text_run
    dsimp only
    rw [hg]
    dsimp only
    unfold pyAfterFirst
    rw [hnone]

/-- Witness for amended C3 on a concrete run: decoded output
"x</think> y " splits at its single delimiter and the tail " y " is
kept trimmed, giving "y". -/
theorem C3_witness :
    ("x</think> y " : String).data = "x".data ++ "</think>".data ++ " y ".data ∧
    summarize_text genOneThink "q" = pyStrip ⟨(" y " : String).data⟩ ∧
    pyStrip ⟨(" y " : String).data⟩ = "y" := by
  refine ⟨by decide, ?_, by decide⟩
  exact (C3_amended_split_first genOneThink "q" "x</think> y "
    "x".data " y ".data rfl).1 (by decide) (by decide)

/-- Counterexample to C4 as stated: a search page whose second
result-title anchor has no href makes the whole search raise KeyError
instead of skipping that anchor and returning the other two entries. -/
theorem C4_counterexample :
    search_indiankanoon w4 "q" = Except.error (PyErr.keyError "href") := rfl

/-- Claim C4 (amended): parsing of a successful search response is not
best-effort: when every one of the first 10 result-title anchors has
an href, each yields a trimmed title and an absolute URL formed as
the source domain plus the relative href; but if any of the first 10
anchors lacks an href, the whole search raises KeyError. -/
theorem C4_amended_href (w : World) (q : String) (b : Html)
    (hw : w (searchURL q) = .response 200 b) :
    ((∀ l ∈ b.resultLinks.take 10, l.href ≠ none) →
      search_indiankanoon w q =
        Except.ok ((b.resultLinks.take 10).map
          (fun l => ⟨pyStrip l.text, "https://indiankanoon.org" ++ l.href.getD ""⟩))) ∧
    ((∃ l ∈ b.resultLinks.take 10, l.href = none) →
      search_indiankanoon w q = Except.error (PyErr.keyError "href")) := by
  have hbase : search_indiankanoon w q = mapExcept parseLink (b.resultLinks.take 10) := by
    unfold search_indiankanoon fetch_url
    rw [hw]
    dsimp only
    rw [if_neg (by omega)]
  constructor
  · intro hall
    rw [hbase]
    apply mapExcept_map
    intro l hl
    cases hh : l.href with
    | none => exact absurd hh (hall l hl)
    | some h2 => simp [parseLink, hh]
  · intro hex
    rw [hbase]
    apply mapExcept_error_uniform parseLink
      (fun l => ⟨pyStrip l.text, "https://indiankanoon.org" ++ l.href.getD ""⟩)
    · intro l hl
      cases hh : l.href with
      | none =>
        right
        simp [parseLink, hh]
      | some h2 =>
        left
        simp [parseLink, hh]
    · obtain ⟨l, hl, hnone⟩ := hex
      exact ⟨l, hl, by simp [parseLink, hnone]⟩

/-- Witness for amended C4 on a concrete run: two anchors with hrefs
parse into trimmed titles and absolute URLs. -/
theorem C4_witness :
    (∀ l ∈ ([⟨" A ", some "/doc/1/"⟩, ⟨"B", some "/doc/2/"⟩] : List Link).take 10,
      l.href ≠ none) ∧
    search_indiankanoon w4b "tax" =
      Except.ok [⟨"A", "https://indiankanoon.org/doc/1/"⟩,
        ⟨"B", "https://indiankanoon.org/doc/2/"⟩] := by
  refine ⟨by decide, ?_⟩
  have h := (C4_amended_href w4b "tax"
    ⟨[⟨" A ", some "/doc/1/"⟩, ⟨"B", some "/doc/2/"⟩], []⟩ rfl).1 (by decide)
  rw [h]
  rfl

/-- Witness for C10 on a concrete run: a page fetched successfully
whose genuine paragraph text contains "Failed to fetch" is still
skipped. -/
theorem C10_witness :
    scrape_case w10 "u10" =
      Except.ok ⟨"Unknown", "The clerk Failed to fetch the records", "u10"⟩ ∧
    pyIn "Failed to fetch" "The clerk Failed to fetch the records" = true ∧
    process_case_run w10 genOk ⟨"T10", "u10"⟩ =
      (Except.ok ⟨"T10", "Summary unavailable due to missing case text."⟩, []) :=
  ⟨rfl, by decide,
    C10_substring_skip w10 genOk ⟨"T10", "u10"⟩
      ⟨"Unknown", "The clerk Failed to fetch the records", "u10"⟩ rfl (by decide)⟩

end LawRef
